import Mathlib

/-!
Shallow embedding of the nutype constrained-value type generator
(crate root src/nutype_macros/src/lib.rs).

The crate root in the sources contains the pipeline skeleton: the
Newtype trait with its expand method (parse, validate, generate), the
dispatcher expand_nutype, the per-family drivers
parse_integer_attrs_and_gen / parse_float_attrs_and_gen, and the data
shapes GenerateParams / NumberParams.  The family modules (common,
string, integer, float) are not part of the sources; their behaviour
(attribute parsing, trait-compatibility validation, code generation,
and the semantics of the generated constructors) is modelled from the
specification, faithful to the call-site signatures visible in the
crate root.
-/

set_option autoImplicit false

namespace Nutype

/-- Source position attached to values for diagnostics (proc-macro spans). -/
abbrev Span := Nat

/-- A located value: the payload plus its source position
(common::models::SpannedItem). -/
structure SpannedItem (T : Type) where
  item : T
  span : Span
deriving DecidableEq

/-- The closed set of requestable derive traits (common::models::DeriveTrait).
Modelled from the spec: equality, ordering, hashing, default construction,
textual conversion, borrowing, and arithmetic composition. -/
inductive DeriveTrait
  | eq
  | ord
  | hash
  | display
  | fromStr
  | borrow
  | default
  | arithmetic
deriving DecidableEq

/-- A requested derive trait together with its source position
(common::models::SpannedDeriveTrait). -/
abbrev SpannedDeriveTrait := SpannedItem DeriveTrait

/-- Modelled from the spec: a validator is a named, possibly-rejecting
predicate applied after all sanitizers; its name contributes one error
variant to the generated error type. -/
structure Validator (α : Type) where
  name : String
  check : α → Bool

/-- The Guard (common::models::Guard): ordered sanitizers plus ordered
validators.  Modelled from the spec: a sanitizer is an always-succeeding
transformation on the inner value. -/
structure Guard (α : Type) where
  sanitizers : List (α → α)
  validators : List (Validator α)

/-- Guard::has_validation — true iff at least one validator is present. -/
def Guard.has_validation {α : Type} (g : Guard α) : Bool :=
  !g.validators.isEmpty

/-- common::models::NewUnchecked: whether the request opted into an
unchecked constructor (the carried span is irrelevant here). -/
abbrev NewUnchecked := Bool

/-- The attribute-parse result (common::models::Attributes):
guard, unchecked flag, optional default expression. -/
structure Attributes (α : Type) where
  guard : Guard α
  new_unchecked : NewUnchecked
  maybe_default_value : Option α

/-- The generated type's name (common::models::TypeName). -/
abbrev TypeName := String

/-- Declared visibility of the wrapper (syn::Visibility). -/
abbrev Visibility := String

/-- A documentation attribute forwarded verbatim to the output. -/
abbrev DocAttr := String

/-- The reasons an expansion can be rejected; together with a span this
models a syn::Error produced by a pipeline stage. -/
inductive Reason
  | missingDefault
  | incompatibleWithValidation
  | familyIncompatible
  | conflictingOptions
deriving DecidableEq

/-- A positioned error value (models syn::Error). -/
structure Err where
  span : Span
  reason : Reason
deriving DecidableEq

/-- The 12 integer widths (common::models::IntegerInnerType). -/
inductive IntegerInnerType
  | u8 | u16 | u32 | u64 | u128 | usize
  | i8 | i16 | i32 | i64 | i128 | isize
deriving DecidableEq

/-- The 2 float widths (common::models::FloatInnerType). -/
inductive FloatInnerType
  | f32 | f64
deriving DecidableEq

/-- The inner primitive (common::models::InnerType): a closed variant set. -/
inductive InnerType
  | string
  | integer (tp : IntegerInnerType)
  | float (tp : FloatInnerType)
deriving DecidableEq

/-- The front-end's structured request (common::models::NewtypeMeta),
consumed once by the dispatcher. -/
structure NewtypeMeta where
  doc_attrs : List DocAttr
  type_name : TypeName
  inner_type : InnerType
  vis : Visibility
  derive_traits : List SpannedDeriveTrait

/-- Modelled from the spec: one recognized configuration option of the
attribute token stream — sanitize(...), validate(...), default = expr,
new_unchecked.  The option list stands for the raw TokenStream handed to
parse_attributes. -/
inductive ConfigItem (α : Type)
  | sanitize (sans : List (α → α))
  | validate (vals : List (Validator α))
  | default_value (value : α)
  | new_unchecked

/-- Modelled from the spec: the configuration token stream, as the ordered
list of recognized options it encodes. -/
abbrev Config (α : Type) := List (ConfigItem α)

/-- The fully-validated bundle handed to the code generator
(GenerateParams in the crate root). -/
structure GenerateParams (α : Type) where
  doc_attrs : List DocAttr
  traits : Finset DeriveTrait
  vis : Visibility
  type_name : TypeName
  guard : Guard α
  new_unchecked : NewUnchecked
  maybe_default_value : Option α

/-- Modelled from the spec: apply every sanitizer in declaration order. -/
def sanitize {α : Type} (g : Guard α) (x : α) : α :=
  g.sanitizers.foldl (fun v s => s v) x

/-- Modelled from the spec: the generated checked constructor — run every
sanitizer in declaration order, then every validator in declaration order,
short-circuiting on the first validator failure and reporting that
validator's name as the error variant. -/
def new_checked {α : Type} (g : Guard α) (x : α) : Except String α :=
  match g.validators.find? (fun v => !v.check (sanitize g x)) with
  | some v => .error v.name
  | none => .ok (sanitize g x)

/-- Modelled from the spec: the semantically relevant artifacts of the
emitted token stream — the wrapper declaration data, the checked
constructor, the optional unchecked constructor, the error-type variants,
the approved trait implementations, the default implementation, and any
diagnostic embedded in the output. -/
structure GeneratedOutput (α : Type) where
  type_name : TypeName
  vis : Visibility
  doc_attrs : List DocAttr
  new : α → Except String α
  new_unchecked : Option (α → α)
  error_variants : List String
  traits : Finset DeriveTrait
  default_impl : Option α
  compile_error : Option Reason

/-- Modelled from the spec: the code generator.  It emits the wrapper
with the checked constructor for the guard; an unchecked constructor that
stores its input verbatim exactly when new_unchecked was requested; one
error variant per validator; the approved trait implementations; and a
default implementation from the supplied default expression when the
default trait was approved.  The generator is the only stage holding both
the approved traits and maybe_default_value, so the missing-default
diagnostic is emitted here, embedded in the output. -/
def generate {α : Type} (p : GenerateParams α) : GeneratedOutput α where
  type_name := p.type_name
  vis := p.vis
  doc_attrs := p.doc_attrs
  new := new_checked p.guard
  new_unchecked := if p.new_unchecked then some id else none
  error_variants := p.guard.validators.map (fun v => v.name)
  traits := p.traits
  default_impl :=
    if DeriveTrait.default ∈ p.traits then p.maybe_default_value else none
  compile_error :=
    if DeriveTrait.default ∈ p.traits then
      (if p.maybe_default_value.isNone then some Reason.missingDefault else none)
    else none

/-- Modelled from the spec: recursive worker of the attribute parser —
accumulate recognized options, rejecting a duplicated option kind as a
conflict. -/
def parse_attributes_go {α : Type} (seenSan seenVal : Bool) (acc : Attributes α) :
    Config α → Except Err (Attributes α)
  | [] => .ok acc
  | .sanitize sans :: rest =>
    if seenSan then .error ⟨0, .conflictingOptions⟩
    else parse_attributes_go true seenVal
      { acc with guard := { acc.guard with sanitizers := sans } } rest
  | .validate vals :: rest =>
    if seenVal then .error ⟨0, .conflictingOptions⟩
    else parse_attributes_go seenSan true
      { acc with guard := { acc.guard with validators := vals } } rest
  | .default_value v :: rest =>
    if acc.maybe_default_value.isSome then .error ⟨0, .conflictingOptions⟩
    else parse_attributes_go seenSan seenVal
      { acc with maybe_default_value := some v } rest
  | .new_unchecked :: rest =>
    if acc.new_unchecked then .error ⟨0, .conflictingOptions⟩
    else parse_attributes_go seenSan seenVal
      { acc with new_unchecked := true } rest

/-- Modelled from the spec: the shared attribute parser — any subset of
the recognized options, including none, is legal; duplicated options
conflict.  The empty configuration yields the empty guard, no unchecked
constructor and no default. -/
def parse_attributes_core {α : Type} (attrs : Config α) : Except Err (Attributes α) :=
  parse_attributes_go false false ⟨⟨[], []⟩, false, none⟩ attrs

/-- Modelled from the spec: the per-trait compatibility policy shared by
the families — a default-construction trait is never rejected here (the
validator has no access to the default expression), and an
arithmetic-composition trait is rejected exactly when validation is
present; all other traits have no interaction with the guard. -/
def trait_incompatibility (has_validation : Bool) : DeriveTrait → Option Reason
  | .arithmetic =>
    if has_validation then some Reason.incompatibleWithValidation else none
  | _ => none

/-- Modelled from the spec: fold the requested traits through a policy,
short-circuiting with a positioned error at the first incompatible
request and otherwise collecting the approved set (duplicates collapse). -/
def validate_traits_with (pol : DeriveTrait → Option Reason) :
    List SpannedDeriveTrait → Except Err (Finset DeriveTrait)
  | [] => .ok ∅
  | t :: ts =>
    match pol t.item with
    | some r => .error ⟨t.span, r⟩
    | none =>
      match validate_traits_with pol ts with
      | .error e => .error e
      | .ok s => .ok (insert t.item s)

/-- integer::validate::validate_integer_derive_traits — per the crate
root's call site it receives the requested traits and only the boolean
has_validation; body modelled from the spec. -/
def validate_integer_derive_traits (derive_traits : List SpannedDeriveTrait)
    (has_validation : Bool) : Except Err (Finset DeriveTrait) :=
  validate_traits_with (trait_incompatibility has_validation) derive_traits

/-- The trait-validation step of the integer pipeline exactly as invoked
in parse_integer_attrs_and_gen: only guard.has_validation() is passed on. -/
def integer_approved_traits {α : Type} (guard : Guard α)
    (derive_traits : List SpannedDeriveTrait) : Except Err (Finset DeriveTrait) :=
  validate_integer_derive_traits derive_traits guard.has_validation

/-- float::validate::validate_float_derive_traits — per the crate root's
call site it receives the requested traits and the guard; body modelled
from the spec (arithmetic gated on no validators being present). -/
def validate_float_derive_traits {α : Type} (derive_traits : List SpannedDeriveTrait)
    (guard : Guard α) : Except Err (Finset DeriveTrait) :=
  validate_traits_with (trait_incompatibility guard.has_validation) derive_traits

/-- string::StringNewtype — the string-family attribute parser; body
modelled from the spec (shared Attributes shape). -/
def StringNewtype.parse_attributes {α : Type} (attrs : Config α) :
    Except Err (Attributes α) :=
  parse_attributes_core attrs

/-- string::StringNewtype — the string-family trait validator; body
modelled from the spec. -/
def StringNewtype.validate {α : Type} (guard : Guard α)
    (derive_traits : List SpannedDeriveTrait) : Except Err (Finset DeriveTrait) :=
  validate_traits_with (trait_incompatibility guard.has_validation) derive_traits

/-- string::StringNewtype — the string-family generator; body modelled
from the spec. -/
def StringNewtype.generate {α : Type} (params : GenerateParams α) : GeneratedOutput α :=
  Nutype.generate params

/-- integer::parse::parse_attributes::<T> — the width argument stands for
the monomorphization type T; body modelled from the spec. -/
def integer.parse_attributes {α : Type} (width : IntegerInnerType) (attrs : Config α) :
    Except Err (Attributes α) :=
  let _ := width
  parse_attributes_core attrs

/-- float::parse::parse_attributes::<T> — the width argument stands for
the monomorphization type T; body modelled from the spec. -/
def float.parse_attributes {α : Type} (width : FloatInnerType) (attrs : Config α) :
    Except Err (Attributes α) :=
  let _ := width
  parse_attributes_core attrs

/-- integer::gen::gen_nutype_for_integer — argument list as at the crate
root's call site; body modelled from the spec. -/
def gen_nutype_for_integer {α : Type} (doc_attrs : List DocAttr) (vis : Visibility)
    (tp : IntegerInnerType) (type_name : TypeName) (guard : Guard α)
    (traits : Finset DeriveTrait) (new_unchecked : NewUnchecked)
    (maybe_default_value : Option α) : GeneratedOutput α :=
  let _ := tp
  generate ⟨doc_attrs, traits, vis, type_name, guard, new_unchecked, maybe_default_value⟩

/-- float::gen::gen_nutype_for_float — argument list as at the crate
root's call site; body modelled from the spec. -/
def gen_nutype_for_float {α : Type} (doc_attrs : List DocAttr) (vis : Visibility)
    (tp : FloatInnerType) (type_name : TypeName) (guard : Guard α)
    (traits : Finset DeriveTrait) (new_unchecked : NewUnchecked)
    (maybe_default_value : Option α) : GeneratedOutput α :=
  let _ := tp
  generate ⟨doc_attrs, traits, vis, type_name, guard, new_unchecked, maybe_default_value⟩

/-- Newtype::expand (crate root): parse the attributes, validate the
requested traits against the guard, then generate — each fallible stage
short-circuits the expansion with its own error.  Stated over arbitrary
stage functions, exactly as the trait's provided method is. -/
def newtype_expand {α : Type}
    (parse : Config α → Except Err (Attributes α))
    (validate : Guard α → List SpannedDeriveTrait → Except Err (Finset DeriveTrait))
    (gen : GenerateParams α → GeneratedOutput α)
    (attrs : Config α) (doc_attrs : List DocAttr) (type_name : TypeName)
    (vis : Visibility) (derive_traits : List SpannedDeriveTrait) :
    Except Err (GeneratedOutput α) :=
  match parse attrs with
  | .error e => .error e
  | .ok a =>
    match validate a.guard derive_traits with
    | .error e => .error e
    | .ok traits =>
      .ok (gen ⟨doc_attrs, traits, vis, type_name, a.guard, a.new_unchecked,
                a.maybe_default_value⟩)

/-- StringNewtype's Newtype::expand instance (the trait's provided method
applied to the string-family stages), argument order as in the crate root. -/
def StringNewtype.expand {α : Type} (attrs : Config α) (doc_attrs : List DocAttr)
    (type_name : TypeName) (vis : Visibility)
    (derive_traits : List SpannedDeriveTrait) : Except Err (GeneratedOutput α) :=
  newtype_expand StringNewtype.parse_attributes StringNewtype.validate
    StringNewtype.generate attrs doc_attrs type_name vis derive_traits

/-- NumberParams (crate root): the bundle threaded to the numeric family
drivers. -/
structure NumberParams (α NumberType : Type) where
  doc_attrs : List DocAttr
  vis : Visibility
  tp : NumberType
  type_name : TypeName
  attrs : Config α
  derive_traits : List SpannedDeriveTrait

/-- parse_integer_attrs_and_gen::<T> (crate root): parse the integer
attributes, validate traits passing only guard.has_validation(), then
generate.  The width argument stands for the monomorphization type T. -/
def parse_integer_attrs_and_gen {α : Type} (width : IntegerInnerType)
    (params : NumberParams α IntegerInnerType) : Except Err (GeneratedOutput α) :=
  match integer.parse_attributes width params.attrs with
  | .error e => .error e
  | .ok a =>
    match validate_integer_derive_traits params.derive_traits a.guard.has_validation with
    | .error e => .error e
    | .ok traits =>
      .ok (gen_nutype_for_integer params.doc_attrs params.vis params.tp
            params.type_name a.guard traits a.new_unchecked a.maybe_default_value)

/-- parse_float_attrs_and_gen::<T> (crate root): parse the float
attributes, validate traits passing the guard, then generate.  The width
argument stands for the monomorphization type T. -/
def parse_float_attrs_and_gen {α : Type} (width : FloatInnerType)
    (params : NumberParams α FloatInnerType) : Except Err (GeneratedOutput α) :=
  match float.parse_attributes width params.attrs with
  | .error e => .error e
  | .ok a =>
    match validate_float_derive_traits params.derive_traits a.guard with
    | .error e => .error e
    | .ok traits =>
      .ok (gen_nutype_for_float params.doc_attrs params.vis params.tp
            params.type_name a.guard traits a.new_unchecked a.maybe_default_value)

/-- expand_nutype (crate root): the dispatcher — route the front-end's
request to the family pipeline named by its InnerType, monomorphizing the
numeric pipelines per concrete width. -/
def expand_nutype {α : Type} (nm : NewtypeMeta) (attrs : Config α) :
    Except Err (GeneratedOutput α) :=
  match nm.inner_type with
  | .string =>
    StringNewtype.expand attrs nm.doc_attrs nm.type_name nm.vis nm.derive_traits
  | .integer tp =>
    let params : NumberParams α IntegerInnerType :=
      ⟨nm.doc_attrs, nm.vis, tp, nm.type_name, attrs, nm.derive_traits⟩
    match tp with
    | .u8 => parse_integer_attrs_and_gen .u8 params
    | .u16 => parse_integer_attrs_and_gen .u16 params
    | .u32 => parse_integer_attrs_and_gen .u32 params
    | .u64 => parse_integer_attrs_and_gen .u64 params
    | .u128 => parse_integer_attrs_and_gen .u128 params
    | .usize => parse_integer_attrs_and_gen .usize params
    | .i8 => parse_integer_attrs_and_gen .i8 params
    | .i16 => parse_integer_attrs_and_gen .i16 params
    | .i32 => parse_integer_attrs_and_gen .i32 params
    | .i64 => parse_integer_attrs_and_gen .i64 params
    | .i128 => parse_integer_attrs_and_gen .i128 params
    | .isize => parse_integer_attrs_and_gen .isize params
  | .float tp =>
    let params : NumberParams α FloatInnerType :=
      ⟨nm.doc_attrs, nm.vis, tp, nm.type_name, attrs, nm.derive_traits⟩
    match tp with
    | .f32 => parse_float_attrs_and_gen .f32 params
    | .f64 => parse_float_attrs_and_gen .f64 params

/-- The user-visible outcome of one invocation: either the generated
artifact, whole, or a single diagnostic. -/
inductive Expansion (α : Type)
  | success (out : GeneratedOutput α)
  | diagnostic (err : Err)

/-- nutype (crate root): the entry point — the expansion's output on
success, a single compile-error diagnostic otherwise. -/
def nutype {α : Type} (nm : NewtypeMeta) (attrs : Config α) : Expansion α :=
  match expand_nutype nm attrs with
  | .ok out => .success out
  | .error e => .diagnostic e

/-! Concrete values used by the witnesses. -/

/-- A concrete validator over Int: the value must be positive. -/
def posValidator : Validator Int := ⟨"positive", fun v => decide (0 < v)⟩

/-- A concrete guard with no sanitizer and the positivity validator. -/
def posGuard : Guard Int := ⟨[], [posValidator]⟩

/-- A concrete guard with one sanitizer and an evenness validator. -/
def evenGuard : Guard Int := ⟨[fun x => x + 1], [⟨"even", fun x => decide (x % 2 = 0)⟩]⟩

/-! Claim theorems. -/

/-- C1: Guard soundness of the generated checked constructor — every
accepted input yields exactly the value obtained by applying all
sanitizers in declaration order, and that sanitized value passes every
validator; whenever some validator rejects the sanitized value, the
constructor returns an error naming a rejecting validator and produces
no wrapper value. -/
theorem c1_guard_soundness : ∀ (α : Type) (g : Guard α) (x : α),
    (∀ y, new_checked g x = .ok y →
      y = sanitize g x ∧ ∀ v ∈ g.validators, v.check (sanitize g x) = true) ∧
    ((∃ v ∈ g.validators, v.check (sanitize g x) = false) →
      ∃ w ∈ g.validators, w.check (sanitize g x) = false ∧
        new_checked g x = .error w.name ∧ ∀ y, new_checked g x ≠ .ok y) := by
  intro α g x
  constructor
  · intro y hy
    unfold new_checked at hy
    cases hfind : g.validators.find? (fun v => !v.check (sanitize g x)) with
    | some w =>
      rw [hfind] at hy
      exact absurd hy (by simp)
    | none =>
      rw [hfind] at hy
      injection hy with hy
      subst hy
      refine ⟨rfl, ?_⟩
      intro v hv
      have h2 := List.find?_eq_none.mp hfind v hv
      simpa using h2
  · rintro ⟨v, hv, hcheck⟩
    cases hfind : g.validators.find? (fun w => !w.check (sanitize g x)) with
    | none =>
      exact absurd
        (show (fun w => !w.check (sanitize g x)) v = true by simp [hcheck])
        (List.find?_eq_none.mp hfind v hv)
    | some w =>
      have herr : new_checked g x = .error w.name := by
        unfold new_checked
        rw [hfind]
      refine ⟨w, List.mem_of_find?_eq_some hfind, ?_, herr, ?_⟩
      · have h3 := List.find?_some hfind
        simpa using h3
      · intro y h4
        rw [herr] at h4
        exact absurd h4 (by simp)

/-- Witness for C1: for the positivity guard, input -1 is rejected with
the validator's name. -/
theorem c1_guard_soundness_witness :
    new_checked posGuard (-1 : Int) = .error "positive" := by
  obtain ⟨w, hw, hfail, herr, hno⟩ :=
    (c1_guard_soundness Int posGuard (-1)).2
      ⟨posValidator, by simp [posGuard], by decide⟩
  have hwp : w = posValidator := by
    simpa [posGuard] using hw
  rw [hwp] at herr
  exact herr

/-- C2: for every family, an arithmetic/composition trait request is
rejected with the validation-incompatibility reason exactly when the
guard has at least one validator, and approved otherwise. -/
theorem c2_arithmetic_gated_on_validation : ∀ (α : Type) (g : Guard α) (s : Span),
    (validate_integer_derive_traits [⟨.arithmetic, s⟩] g.has_validation =
      if g.has_validation then .error ⟨s, .incompatibleWithValidation⟩
      else .ok {DeriveTrait.arithmetic}) ∧
    (validate_float_derive_traits [⟨.arithmetic, s⟩] g =
      if g.has_validation then .error ⟨s, .incompatibleWithValidation⟩
      else .ok {DeriveTrait.arithmetic}) ∧
    (StringNewtype.validate g [⟨.arithmetic, s⟩] =
      if g.has_validation then .error ⟨s, .incompatibleWithValidation⟩
      else .ok {DeriveTrait.arithmetic}) ∧
    (g.has_validation = true ↔ g.validators ≠ []) := by
  intro α g s
  have key : validate_traits_with (trait_incompatibility g.has_validation)
      [⟨.arithmetic, s⟩] =
      if g.has_validation then .error ⟨s, .incompatibleWithValidation⟩
      else .ok {DeriveTrait.arithmetic} := by
    cases hv : g.has_validation <;>
      simp [validate_traits_with, trait_incompatibility, hv]
  refine ⟨key, key, key, ?_⟩
  simp [Guard.has_validation]

/-- C7: the empty configuration is accepted by every family's attribute
parser, yielding the empty guard with no default and no unchecked
constructor, and the checked constructor of the unconstrained guard
succeeds on every input, returning it unchanged. -/
theorem c7_empty_config_legal : ∀ (α : Type) (x : α),
    StringNewtype.parse_attributes ([] : Config α) = .ok ⟨⟨[], []⟩, false, none⟩ ∧
    (∀ w, integer.parse_attributes w ([] : Config α) = .ok ⟨⟨[], []⟩, false, none⟩) ∧
    (∀ w, float.parse_attributes w ([] : Config α) = .ok ⟨⟨[], []⟩, false, none⟩) ∧
    new_checked (⟨[], []⟩ : Guard α) x = .ok x := by
  intro α x
  exact ⟨rfl, fun _ => rfl, fun _ => rfl, rfl⟩

/-- C8: whenever new_unchecked is enabled, the generated output contains
an unchecked constructor that stores its input verbatim — the identity,
whatever the guard holds — and the checked constructor is still
generated alongside it. -/
theorem c8_unchecked_bypass : ∀ (α : Type) (p : GenerateParams α),
    p.new_unchecked = true →
    (generate p).new_unchecked = some id ∧ (generate p).new = new_checked p.guard := by
  intro α p h
  exact ⟨by simp [generate, h], rfl⟩

/-- Witness for C8: a concrete request with a nonempty guard and
new_unchecked on. -/
theorem c8_unchecked_bypass_witness :
    (generate (⟨[], {DeriveTrait.ord}, "pub", "Amount", posGuard, true, none⟩ :
        GenerateParams Int)).new_unchecked = some id ∧
    (generate (⟨[], {DeriveTrait.ord}, "pub", "Amount", posGuard, true, none⟩ :
        GenerateParams Int)).new = new_checked posGuard :=
  c8_unchecked_bypass Int ⟨[], {DeriveTrait.ord}, "pub", "Amount", posGuard, true, none⟩ rfl

/-- C10: the integer family's approved trait set depends on the guard
only through has_validation — two guards agreeing on that boolean give
identical trait-validation results, whatever their validators and
sanitizers are. -/
theorem c10_integer_traits_depend_only_on_has_validation :
    ∀ (α : Type) (ts : List SpannedDeriveTrait) (g1 g2 : Guard α),
    g1.has_validation = g2.has_validation →
    integer_approved_traits g1 ts = integer_approved_traits g2 ts := by
  intro α ts g1 g2 h
  unfold integer_approved_traits
  rw [h]

/-- Witness for C10: two guards with different validators and
sanitizers but equal has_validation produce the same result. -/
theorem c10_integer_traits_witness :
    integer_approved_traits posGuard [⟨DeriveTrait.arithmetic, 7⟩] =
      integer_approved_traits evenGuard [⟨DeriveTrait.arithmetic, 7⟩] :=
  c10_integer_traits_depend_only_on_has_validation Int
    [⟨DeriveTrait.arithmetic, 7⟩] posGuard evenGuard rfl

/-- C3: requesting the default-construction trait without a supplied
default expression makes the expansion emit the missing-default
diagnostic (and no default implementation); conversely a supplied
default with the trait not requested is accepted by the parser and has
no effect on the generated output. -/
theorem c3_default_consistency : ∀ (α : Type) (p : GenerateParams α) (d : α),
    (DeriveTrait.default ∈ p.traits → p.maybe_default_value = none →
      (generate p).compile_error = some Reason.missingDefault ∧
      (generate p).default_impl = none) ∧
    (DeriveTrait.default ∉ p.traits →
      generate p = generate { p with maybe_default_value := none }) ∧
    parse_attributes_core [ConfigItem.default_value d] =
      .ok ⟨⟨[], []⟩, false, some d⟩ := by
  intro α p d
  refine ⟨?_, ?_, rfl⟩
  · intro hmem hnone
    exact ⟨by simp [generate, hmem, hnone], by simp [generate, hmem, hnone]⟩
  · intro hnot
    simp [generate, hnot]

/-- Witness for C3: concrete requests with the default trait and no
default, and with a default but no default trait. -/
theorem c3_default_consistency_witness :
    (generate (⟨[], {DeriveTrait.default}, "pub", "W", ⟨[], []⟩, false, none⟩ :
        GenerateParams Int)).compile_error = some Reason.missingDefault ∧
    generate (⟨[], {DeriveTrait.ord}, "pub", "W", ⟨[], []⟩, false, some 5⟩ :
        GenerateParams Int) =
      generate ⟨[], {DeriveTrait.ord}, "pub", "W", ⟨[], []⟩, false, none⟩ := by
  refine ⟨((c3_default_consistency Int
    ⟨[], {DeriveTrait.default}, "pub", "W", ⟨[], []⟩, false, none⟩ 0).1
      (by decide) rfl).1, ?_⟩
  exact (c3_default_consistency Int
    ⟨[], {DeriveTrait.ord}, "pub", "W", ⟨[], []⟩, false, some 5⟩ 0).2.1 (by decide)

/-- C4: determinism — the whole expansion and the generator are pure
functions of their inputs: identical inputs yield identical outputs. -/
theorem c4_determinism : ∀ (α : Type) (nm nm2 : NewtypeMeta) (a a2 : Config α)
    (p q : GenerateParams α),
    nm = nm2 → a = a2 → p = q →
    expand_nutype nm a = expand_nutype nm2 a2 ∧ generate p = generate q := by
  intro α nm nm2 a a2 p q h1 h2 h3
  subst h1
  subst h2
  subst h3
  exact ⟨rfl, rfl⟩

/-- Witness for C4: a concrete request expanded twice gives the same
output. -/
theorem c4_determinism_witness :
    expand_nutype ⟨[], "W", InnerType.integer .i32, "pub", []⟩ ([] : Config Int) =
      expand_nutype ⟨[], "W", InnerType.integer .i32, "pub", []⟩ ([] : Config Int) ∧
    generate (⟨[], ∅, "pub", "W", ⟨[], []⟩, false, none⟩ : GenerateParams Int) =
      generate ⟨[], ∅, "pub", "W", ⟨[], []⟩, false, none⟩ :=
  c4_determinism Int ⟨[], "W", InnerType.integer .i32, "pub", []⟩
    ⟨[], "W", InnerType.integer .i32, "pub", []⟩ [] []
    ⟨[], ∅, "pub", "W", ⟨[], []⟩, false, none⟩
    ⟨[], ∅, "pub", "W", ⟨[], []⟩, false, none⟩ rfl rfl rfl

/-- C5: short-circuit error propagation — a parse error is returned
unchanged and the result does not depend on the validator or generator
(they are never invoked); a validation error is returned unchanged and
the result does not depend on the generator; on success the generator's
output is returned whole; at the top level a failed expansion produces a
single diagnostic and no generated type, a successful one the artifact. -/
theorem c5_short_circuit : ∀ (α : Type)
    (parse : Config α → Except Err (Attributes α))
    (val val2 : Guard α → List SpannedDeriveTrait → Except Err (Finset DeriveTrait))
    (gen gen2 : GenerateParams α → GeneratedOutput α)
    (attrs : Config α) (d : List DocAttr) (tn : TypeName) (v : Visibility)
    (ts : List SpannedDeriveTrait) (e : Err) (a : Attributes α)
    (s : Finset DeriveTrait) (nm : NewtypeMeta) (ca : Config α)
    (o : GeneratedOutput α),
    (parse attrs = .error e →
      newtype_expand parse val gen attrs d tn v ts = .error e ∧
      newtype_expand parse val gen attrs d tn v ts =
        newtype_expand parse val2 gen2 attrs d tn v ts) ∧
    (parse attrs = .ok a → val a.guard ts = .error e →
      newtype_expand parse val gen attrs d tn v ts = .error e ∧
      newtype_expand parse val gen attrs d tn v ts =
        newtype_expand parse val gen2 attrs d tn v ts) ∧
    (parse attrs = .ok a → val a.guard ts = .ok s →
      newtype_expand parse val gen attrs d tn v ts =
        .ok (gen ⟨d, s, v, tn, a.guard, a.new_unchecked, a.maybe_default_value⟩)) ∧
    (expand_nutype nm ca = .error e → nutype nm ca = .diagnostic e) ∧
    (expand_nutype nm ca = .ok o → nutype nm ca = .success o) := by
  intro α parse val val2 gen gen2 attrs d tn v ts e a s nm ca o
  refine ⟨?_, ?_, ?_, ?_, ?_⟩
  · intro h
    exact ⟨by simp [newtype_expand, h], by simp [newtype_expand, h]⟩
  · intro h1 h2
    exact ⟨by simp [newtype_expand, h1, h2], by simp [newtype_expand, h1, h2]⟩
  · intro h1 h2
    simp [newtype_expand, h1, h2]
  · intro h
    simp [nutype, h]
  · intro h
    simp [nutype, h]

/-- A stage that fails, used to witness error propagation. -/
def errParse : Config Int → Except Err (Attributes Int) :=
  fun _ => .error ⟨3, .conflictingOptions⟩

/-- A concrete string-family request. -/
def wMeta : NewtypeMeta := ⟨[], "W", InnerType.string, "pub", []⟩

/-- The output the string pipeline produces for wMeta with the empty
configuration. -/
def wOut : GeneratedOutput Int :=
  StringNewtype.generate ⟨[], ∅, "pub", "W", ⟨[], []⟩, false, none⟩

/-- Witness for C5: a failing parse short-circuits the expansion with
its own error, and a successful expansion surfaces the whole artifact. -/
theorem c5_short_circuit_witness :
    newtype_expand errParse StringNewtype.validate StringNewtype.generate
      [] [] "W" "pub" [] = .error ⟨3, Reason.conflictingOptions⟩ ∧
    nutype wMeta ([] : Config Int) = .success wOut := by
  have h := c5_short_circuit Int errParse StringNewtype.validate
    StringNewtype.validate StringNewtype.generate StringNewtype.generate
    [] [] "W" "pub" [] ⟨3, Reason.conflictingOptions⟩ ⟨⟨[], []⟩, false, none⟩
    ∅ wMeta [] wOut
  exact ⟨(h.1 rfl).1, h.2.2.2.2 rfl⟩

/-- C6: dispatcher routing — expand_nutype routes a request to the
family pipeline named by its InnerType, the numeric pipelines at exactly
the requested width, adding nothing beyond the routed call. -/
theorem c6_dispatcher_routing : ∀ (α : Type) (nm : NewtypeMeta) (attrs : Config α),
    (nm.inner_type = .string →
      expand_nutype nm attrs =
        StringNewtype.expand attrs nm.doc_attrs nm.type_name nm.vis nm.derive_traits) ∧
    (∀ tp, nm.inner_type = .integer tp →
      expand_nutype nm attrs = parse_integer_attrs_and_gen tp
        ⟨nm.doc_attrs, nm.vis, tp, nm.type_name, attrs, nm.derive_traits⟩) ∧
    (∀ tp, nm.inner_type = .float tp →
      expand_nutype nm attrs = parse_float_attrs_and_gen tp
        ⟨nm.doc_attrs, nm.vis, tp, nm.type_name, attrs, nm.derive_traits⟩) := by
  intro α nm attrs
  obtain ⟨d, tn, it, v, ts⟩ := nm
  refine ⟨?_, ?_, ?_⟩
  · intro h
    subst h
    rfl
  · intro tp h
    subst h
    cases tp <;> rfl
  · intro tp h
    subst h
    cases tp <;> rfl

/-- Witness for C6: a u8 request is routed to the integer pipeline at
width u8. -/
theorem c6_dispatcher_routing_witness :
    expand_nutype ⟨[], "W", InnerType.integer .u8, "pub", []⟩ ([] : Config Int) =
      parse_integer_attrs_and_gen .u8 ⟨[], "pub", .u8, "W", [], []⟩ :=
  (c6_dispatcher_routing Int ⟨[], "W", InnerType.integer .u8, "pub", []⟩ []).2.1 .u8 rfl

/-- Helper: a trait the policy approves can be dropped into the middle
of a failing list without changing the error. -/
theorem validate_traits_with_mid_error (pol : DeriveTrait → Option Reason)
    (t : SpannedDeriveTrait) (ht : pol t.item = none) :
    ∀ (l2 l3 : List SpannedDeriveTrait) (e : Err),
    validate_traits_with pol (l2 ++ l3) = .error e →
    validate_traits_with pol (l2 ++ t :: l3) = .error e := by
  intro l2
  induction l2 with
  | nil =>
    intro l3 e h
    simp only [List.nil_append] at h ⊢
    simp only [validate_traits_with, ht, h]
  | cons x xs ih =>
    intro l3 e h
    simp only [List.cons_append, validate_traits_with, List.append_eq] at h ⊢
    cases hx : pol x.item with
    | some r =>
      rw [hx] at h
      exact h
    | none =>
      rw [hx] at h
      dsimp only at h ⊢
      cases hV : validate_traits_with pol (xs ++ l3) with
      | error e2 =>
        rw [hV] at h
        rw [ih l3 e2 hV]
        exact h
      | ok s =>
        rw [hV] at h
        exact absurd h (by simp)

/-- Helper: a trait the policy approves, inserted in the middle of a
succeeding list, lands in the approved set. -/
theorem validate_traits_with_mid_ok (pol : DeriveTrait → Option Reason)
    (t : SpannedDeriveTrait) (ht : pol t.item = none) :
    ∀ (l2 l3 : List SpannedDeriveTrait) (s : Finset DeriveTrait),
    validate_traits_with pol (l2 ++ l3) = .ok s →
    validate_traits_with pol (l2 ++ t :: l3) = .ok (insert t.item s) := by
  intro l2
  induction l2 with
  | nil =>
    intro l3 s h
    simp only [List.nil_append] at h ⊢
    simp only [validate_traits_with, ht, h]
  | cons x xs ih =>
    intro l3 s h
    simp only [List.cons_append, validate_traits_with, List.append_eq] at h ⊢
    cases hx : pol x.item with
    | some r =>
      rw [hx] at h
      exact absurd h (by simp)
    | none =>
      rw [hx] at h
      dsimp only at h ⊢
      cases hV : validate_traits_with pol (xs ++ l3) with
      | error e2 =>
        rw [hV] at h
        exact absurd h (by simp)
      | ok s0 =>
        rw [hV] at h
        dsimp only at h
        injection h with h
        subst h
        rw [ih l3 s0 hV]
        dsimp only
        exact congrArg Except.ok (Finset.Insert.comm x.item t.item s0)

/-- Helper: whenever trait validation succeeds, the approved set is the
set of requested trait names — duplicates collapse and order is
irrelevant. -/
theorem validate_traits_with_ok_toFinset (pol : DeriveTrait → Option Reason) :
    ∀ (l : List SpannedDeriveTrait) (s : Finset DeriveTrait),
    validate_traits_with pol l = .ok s → s = (l.map SpannedItem.item).toFinset := by
  intro l
  induction l with
  | nil =>
    intro s h
    simp only [validate_traits_with] at h
    injection h with h
    subst h
    simp
  | cons x xs ih =>
    intro s h
    simp only [validate_traits_with] at h
    cases hx : pol x.item with
    | some r =>
      rw [hx] at h
      exact absurd h (by simp)
    | none =>
      rw [hx] at h
      dsimp only at h
      cases hV : validate_traits_with pol xs with
      | error e =>
        rw [hV] at h
        exact absurd h (by simp)
      | ok s0 =>
        rw [hV] at h
        dsimp only at h
        injection h with h
        subst h
        rw [ih s0 hV]
        simp

/-- C9: trait-gating idempotence — validating a request list with a
duplicated trait yields the same result as validating it with the trait
requested once, for any policy and in particular for the integer
family at any has_validation; and every approved set is the set of
requested trait names, so duplicates collapse and request order is
irrelevant to the outcome. -/
theorem c9_trait_gating_idempotence :
    ∀ (pol : DeriveTrait → Option Reason) (hv : Bool)
      (l1 l2 l3 : List SpannedDeriveTrait) (t t2 : SpannedDeriveTrait),
    t.item = t2.item →
    (validate_traits_with pol (l1 ++ t :: (l2 ++ t2 :: l3)) =
      validate_traits_with pol (l1 ++ t :: (l2 ++ l3))) ∧
    (validate_integer_derive_traits (l1 ++ t :: (l2 ++ t2 :: l3)) hv =
      validate_integer_derive_traits (l1 ++ t :: (l2 ++ l3)) hv) ∧
    (∀ (l : List SpannedDeriveTrait) (s : Finset DeriveTrait),
      validate_traits_with pol l = .ok s →
        s = (l.map SpannedItem.item).toFinset) := by
  intro pol hv l1 l2 l3 t t2 htt
  have main : ∀ (q : DeriveTrait → Option Reason) (m1 : List SpannedDeriveTrait),
      validate_traits_with q (m1 ++ t :: (l2 ++ t2 :: l3)) =
        validate_traits_with q (m1 ++ t :: (l2 ++ l3)) := by
    intro q m1
    induction m1 with
    | nil =>
      simp only [List.nil_append, validate_traits_with, List.append_eq]
      cases hpt : q t.item with
      | some r => rfl
      | none =>
        have hpt2 : q t2.item = none := by
          rw [← htt]
          exact hpt
        dsimp only
        cases hV : validate_traits_with q (l2 ++ l3) with
        | error e =>
          rw [validate_traits_with_mid_error q t2 hpt2 l2 l3 e hV]
        | ok s =>
          rw [validate_traits_with_mid_ok q t2 hpt2 l2 l3 s hV]
          simp only [← htt, Finset.insert_idem]
    | cons x xs ih =>
      simp only [List.cons_append, validate_traits_with, List.append_eq]
      cases hx : q x.item with
      | some r => rfl
      | none =>
        dsimp only
        rw [ih]
  exact ⟨main pol l1, main (trait_incompatibility hv) l1,
    validate_traits_with_ok_toFinset pol⟩

/-- Witness for C9: duplicating an ordering request changes nothing in
the integer family's trait validation. -/
theorem c9_trait_gating_idempotence_witness :
    validate_integer_derive_traits
      [⟨DeriveTrait.ord, 1⟩, ⟨DeriveTrait.eq, 2⟩, ⟨DeriveTrait.ord, 3⟩] true =
    validate_integer_derive_traits [⟨DeriveTrait.ord, 1⟩, ⟨DeriveTrait.eq, 2⟩] true :=
  (c9_trait_gating_idempotence (trait_incompatibility true) true []
    [⟨DeriveTrait.eq, 2⟩] [] ⟨DeriveTrait.ord, 1⟩ ⟨DeriveTrait.ord, 3⟩ rfl).2.1

end Nutype
